import Mathlib

/-!
Verification development for the kubernetes check of the dd-agent repository
(src/checks.d/kubernetes.py and src/utils/kubeutil.py).

The Python code is shallowly embedded: JSON-like documents become inductive
types, Python dictionaries become association lists, raising code returns an
explicit exception value, and side-effecting emission (gauge/rate points,
service checks, agent events) is modelled by returning the list of emitted
records.  Wall-clock reads and HTTP fetches are passed in as parameters.
Python floats are modelled as rationals.
-/

namespace DDAgent

/-- Python exception classes that the embedded code can raise. -/
inductive PyExn where
  | keyError
  | valueError
  | typeError
  | indexError
  | zeroDivisionError
deriving DecidableEq, Repr

/-- Semantics of an emitted metric point.  `AgentCheck.gauge` / `AgentCheck.rate`,
and their histogram variants selected by `use_histogram` through `FUNC_MAP`. -/
inductive Sem where
  | gauge
  | rate
  | histo
  | historate
deriving DecidableEq, Repr

/-- One emitted metric point: `(metric_name, value, tags, semantics)`
as handed to the agent's submission pipeline. -/
structure Point where
  metric : String
  value : Rat
  tags : List String
  sem : Sem
deriving DecidableEq, Repr

/-- Per-instance configuration consumed by `Kubernetes.check`
(`max_depth`, `enabled_rates`, `enabled_gauges`, `use_histogram`,
`publish_aliases`); the rate/gauge patterns are stored already prefixed
with the `kubernetes.` namespace, as `check` does. -/
structure Config where
  max_depth : Nat
  enabled_rates : List String
  enabled_gauges : List String
  use_histogram : Bool
  publish_aliases : Bool
deriving DecidableEq, Repr

/-- `FUNC_MAP[RATE][self.use_histogram]`. -/
def publishRateSem (cfg : Config) : Sem :=
  if cfg.use_histogram then Sem.historate else Sem.rate

/-- `FUNC_MAP[GAUGE][self.use_histogram]`. -/
def publishGaugeSem (cfg : Config) : Sem :=
  if cfg.use_histogram then Sem.histo else Sem.gauge

/-- Shell-style glob matching (`fnmatch.fnmatch` of the Python stdlib,
restricted to the wildcards `*` and `?` plus literal characters; the
configured patterns such as `cpu.*.total` and `network.??_bytes` use only
these).  The pattern must match the whole name.  Written by structural
recursion on the pattern: `*` tries every split point of the remaining name,
which is the standard equivalent of the backtracking regex produced by
`fnmatch.translate`. -/
def globMatch : List Char → List Char → Bool
  | [], s => s.isEmpty
  | '*' :: ps, s => (List.range (s.length + 1)).any (fun i => globMatch ps (s.drop i))
  | '?' :: ps, s =>
    match s with
    | [] => false
    | _ :: cs => globMatch ps cs
  | p :: ps, s =>
    match s with
    | [] => false
    | c :: cs => p == c && globMatch ps cs

/-- `fnmatch(metric, pat)`. -/
def fnmatch (metric pat : String) : Bool :=
  globMatch pat.toList metric.toList

/-- Python `str.lower()` (the metric-name keys are ASCII, where
`Char.toLower` agrees with Python). -/
def pyLower (s : String) : String :=
  String.mk (s.toList.map Char.toLower)

/-- Python `s.split(sep)` for a one-character separator: split at every
occurrence, keeping empty fragments (`"a--b".split("-") == ["a","","b"]`). -/
def pySplitGo (sep : Char) : List Char → List Char → List String
  | [], acc => [String.mk acc.reverse]
  | c :: cs, acc =>
    if c == sep then String.mk acc.reverse :: pySplitGo sep cs []
    else pySplitGo sep cs (c :: acc)

/-- Python `s.split(sep)` for a one-character separator. -/
def pySplit (sep : Char) (s : String) : List String :=
  pySplitGo sep s.toList []

/-- Python `c in s` for a one-character needle. -/
def pyHasChar (s : String) (c : Char) : Bool :=
  s.toList.contains c

/-- Python `needle in hay` / `hay.find(needle) != -1` substring test. -/
def hasSubstrChars (needle : List Char) : List Char → Bool
  | [] => needle.isEmpty
  | c :: rest => needle.isPrefixOf (c :: rest) || hasSubstrChars needle rest

/-- Python `needle in hay` on strings. -/
def pyHasSubstr (hay needle : String) : Bool :=
  hasSubstrChars needle.toList hay.toList

/-- A node of the nested metrics document fetched from cAdvisor, as decoded
by simplejson: numbers (Python `bool` is a `numbers.Number` too), strings,
mappings and lists.  JSON `null` never appears in the claims and is omitted. -/
inductive MetricData where
  | num (v : Rat)
  | bool (b : Bool)
  | str (s : String)
  | dict (fields : List (String × MetricData))
  | list (elems : List MetricData)

/-- Python `xs[-1]` on a list: last element, `IndexError` when empty. -/
def pyLast {α : Type} (xs : List α) : Except PyExn α :=
  match xs.getLast? with
  | some a => Except.ok a
  | none => Except.error PyExn.indexError

/-- The numeric-leaf branch of `_publish_raw_metrics` (lines 130-134):
`if self.enabled_rates and any([fnmatch(metric, pat) for pat in self.enabled_rates])`
publishes a rate, `elif` the same over `self.enabled_gauges` publishes a
gauge, otherwise nothing is emitted. -/
def leaf_points (cfg : Config) (metric : String) (v : Rat) (tags : List String) : List Point :=
  if !cfg.enabled_rates.isEmpty && cfg.enabled_rates.any (fun pat => fnmatch metric pat) then
    [⟨metric, v, tags, publishRateSem cfg⟩]
  else if !cfg.enabled_gauges.isEmpty && cfg.enabled_gauges.any (fun pat => fnmatch metric pat) then
    [⟨metric, v, tags, publishGaugeSem cfg⟩]
  else
    []

/-- Recursive worker for `_publish_raw_metrics`.  The source guards with
`if depth >= self.max_depth: return` and recurses with `depth + 1`; here the
recursion is realized structurally on the remaining depth budget
`gas = max_depth - depth`, so `gas = 0` is exactly the source's guard.
Returns the points emitted in order, and `some e` when an uncaught Python
exception escapes mid-walk (in which case the points already emitted before
the raise are kept, matching the side-effecting original).
A dict recurses into every key with the lowercased key appended to the
metric name; a list recurses into `dat[-1]` only, raising `IndexError`
on an empty list; non-numeric scalars fall through all `isinstance`
branches and emit nothing. -/
def publish_go (cfg : Config) : Nat → String → MetricData → List String → List Point × Option PyExn
  | 0, _, _, _ => ([], none)
  | gas + 1, metric, dat, tags =>
    match dat with
    | MetricData.num v => (leaf_points cfg metric v tags, none)
    | MetricData.bool b => (leaf_points cfg metric (if b then 1 else 0) tags, none)
    | MetricData.str _ => ([], none)
    | MetricData.dict fields =>
      fields.foldl
        (fun acc kv =>
          match acc.2 with
          | some _ => acc
          | none =>
            let r := publish_go cfg gas (metric ++ "." ++ pyLower kv.1) kv.2 tags
            (acc.1 ++ r.1, r.2))
        ([], none)
    | MetricData.list [] => ([], some PyExn.indexError)
    | MetricData.list (e :: es) =>
      publish_go cfg gas metric ((e :: es).getLast (List.cons_ne_nil e es)) tags

/-- `Kubernetes._publish_raw_metrics(metric, dat, tags, depth)` (lines 125-141). -/
def publish_raw_metrics (cfg : Config) (metric : String) (dat : MetricData)
    (tags : List String) (depth : Nat) : List Point × Option PyExn :=
  publish_go cfg (cfg.max_depth - depth) metric dat tags

/-- A decoded JSON value, as produced by `simplejson.loads` on the
`kubernetes.io/created-by` pod annotation. -/
inductive Json where
  | null
  | bool (b : Bool)
  | str (s : String)
  | num (n : Int)
  | arr (elems : List Json)
  | obj (fields : List (String × Json))

/-- The raw text of a JSON-carrying field, abstracted to whether
`simplejson.loads` succeeds on it (`valid j`) or raises `ValueError`
(`invalid`); the parser itself is a stdlib collaborator. -/
inductive JsonText where
  | invalid
  | valid (j : Json)

/-- `simplejson.loads`: decodes the text or raises `ValueError`. -/
def json_loads : JsonText → Except PyExn Json
  | JsonText.invalid => Except.error PyExn.valueError
  | JsonText.valid j => Except.ok j

/-- First-match association-list lookup, modelling `d[k]` / `d.get(k)` for a
Python dict with string keys (dict keys are unique, so first match is the
match). -/
def alookup {α : Type} (m : List (String × α)) (k : String) : Option α :=
  match m with
  | [] => none
  | (k', v) :: rest => if k' = k then some v else alookup rest k

/-- Python `j[k]` on a decoded JSON value: a key lookup on an object
(raising `KeyError` when absent), `TypeError` on any non-object. -/
def Json.pyIndex (j : Json) (k : String) : Except PyExn Json :=
  match j with
  | Json.obj fields =>
    match alookup fields k with
    | some v => Except.ok v
    | none => Except.error PyExn.keyError
  | _ => Except.error PyExn.typeError

/-- Equality of hashable (scalar) JSON values as Python dict keys; Python
identifies `True`/`False` with `1`/`0` as keys.  Objects and arrays are
rejected as unhashable before any key comparison happens, so they compare
unequal here. -/
def json_scalar_eq : Json → Json → Bool
  | Json.null, Json.null => true
  | Json.bool a, Json.bool b => a == b
  | Json.str a, Json.str b => a == b
  | Json.num a, Json.num b => a == b
  | Json.bool a, Json.num b => (if a then (1 : Int) else 0) == b
  | Json.num a, Json.bool b => a == (if b then (1 : Int) else 0)
  | _, _ => false

/-- Using a decoded JSON value as a Python dict key: objects and arrays are
unhashable and raise `TypeError`. -/
def json_check_hashable : Json → Except PyExn Json
  | Json.obj _ => Except.error PyExn.typeError
  | Json.arr _ => Except.error PyExn.typeError
  | j => Except.ok j

/-- `'{0}'.format(v)` on a decoded scalar JSON value (only scalars reach the
formatting site because unhashable keys were rejected earlier). -/
def json_format : Json → String
  | Json.str s => s
  | Json.num n => toString n
  | Json.bool b => if b then "True" else "False"
  | Json.null => "None"
  | Json.arr _ => ""
  | Json.obj _ => ""

/-- `pod['metadata']` as fetched from the kubelet pod-list endpoint.  The
created-by annotation value is kept as raw `JsonText` (field `ann` models the
`annotations` dict). -/
structure Metadata where
  name : Option String
  namespc : Option String
  uid : Option String
  labels : Option (List (String × String))
  ann : Option (List (String × JsonText))
deriving Inhabited

/-- `pod['status']`. -/
structure PodStatus where
  hostIP : Option String
deriving Inhabited

/-- One pod record from the pod-list endpoint. -/
structure Pod where
  metadata : Option Metadata
  status : Option PodStatus
deriving Inhabited

/-- The decoded pod-list document `{"items": [...], ...}`; `extra` models
the dict keys other than `items` (e.g. `kind`, `apiVersion`), which none of
the embedded functions touch. -/
structure PodsList where
  items : Option (List Pod)
  extra : List (String × String)
deriving Inhabited

/-- `KubeUtil.POD_NAME_LABEL`. -/
def POD_NAME_LABEL : String := "io.kubernetes.pod.name"

/-- `KubeUtil.NAMESPACE_LABEL`. -/
def NAMESPACE_LABEL : String := "io.kubernetes.pod.namespace"

/-- Python truthiness of an optional string (`None` and `""` are falsy). -/
def truthyStr : Option String → Bool
  | none => false
  | some s => !(s == "")

/-- Python truthiness of an optional list (`None` and `[]`/`{}` are falsy). -/
def truthyList {α : Type} : Option (List α) → Bool
  | none => false
  | some l => !l.isEmpty

/-- `kube_labels[key].append(tag)` on a `defaultdict(list)`: extend the
entry when the key exists, otherwise create it holding `[tag]`. -/
def kl_append (m : List (String × List String)) (key tag : String) :
    List (String × List String) :=
  match m with
  | [] => [(key, [tag])]
  | (k, ts) :: rest =>
    if k = key then (k, ts ++ [tag]) :: rest else (k, ts) :: kl_append rest key tag

/-- The inner loop of `KubeUtil.extract_kube_labels` over one pod's
`labels.iteritems()`: skip excluded keys, otherwise append
`u"kube_<k>:<v>"` under `key`. -/
def ekl_labels_fold (key : String) (excluded : List String) :
    List (String × String) → List (String × List String) → List (String × List String)
  | [], m => m
  | (k, v) :: rest, m =>
    if excluded.contains k then ekl_labels_fold key excluded rest m
    else ekl_labels_fold key excluded rest (kl_append m key ("kube_" ++ k ++ ":" ++ v))

/-- The outer loop of `KubeUtil.extract_kube_labels` over
`pods_list.get("items") or []`: a pod contributes only when its name,
labels and namespace are all truthy, under the key
`"<namespace>/<name>"`. -/
def ekl_pods_fold (excluded : List String) :
    List Pod → List (String × List String) → List (String × List String)
  | [], m => m
  | pod :: rest, m =>
    let md := pod.metadata.getD default
    if truthyStr md.name && truthyList md.labels && truthyStr md.namespc then
      ekl_pods_fold excluded rest
        (ekl_labels_fold (md.namespc.getD "" ++ "/" ++ md.name.getD "") excluded
          (md.labels.getD []) m)
    else ekl_pods_fold excluded rest m

/-- `KubeUtil.extract_kube_labels(pods_list, excluded_keys)`
(kubeutil.py lines 78-100); the caller passes `[]` for the Python default
`excluded_keys or []`. -/
def extract_kube_labels (pods_list : PodsList) (excluded : List String) :
    List (String × List String) :=
  ekl_pods_fold excluded (pods_list.items.getD []) []

/-- The loop of `KubeUtil.extract_uids`: collect
`p.get('metadata', {}).get('uid')` whenever it is not `None`. -/
def extract_uids_go : List Pod → List String
  | [] => []
  | p :: rest =>
    match (p.metadata.getD default).uid with
    | some uid => uid :: extract_uids_go rest
    | none => extract_uids_go rest

/-- `KubeUtil.extract_uids(pods_list)` (kubeutil.py lines 102-112). -/
def extract_uids (pods_list : PodsList) : List String :=
  extract_uids_go (pods_list.items.getD [])

/-- `KubeUtil.filter_pods_list(pods_list, host_ip)` (kubeutil.py lines
117-130).  The source filters `pods_list['items']` in place and returns the
same dictionary; the in-place mutation is modelled by explicit state
passing, so the single returned record is at once the caller's post-state
of the argument and the returned value. -/
def filter_pods_list (pods_list : PodsList) (host_ip : String) : PodsList :=
  let filtered := (pods_list.items.getD []).filter
    (fun pod => (pod.status.getD default).hostIP == some host_ip)
  { pods_list with items := some filtered }

/-- Hexadecimal digit, the character class of `_shorten_name`'s regex
`([0-9a-fA-F]{64,})`. -/
def isHexChar (c : Char) : Bool :=
  c.isDigit || ('a' ≤ c && c ≤ 'f') || ('A' ≤ c && c ≤ 'F')

/-- Worker for `Kubernetes._shorten_name`: `re.sub` replaces every maximal
run of 64 or more hex characters by its first 12 characters and leaves
everything else unchanged. -/
def shorten_go : List Char → List Char
  | [] => []
  | c :: cs =>
    if isHexChar c then
      let run := c :: cs.takeWhile isHexChar
      let rest := cs.drop (cs.takeWhile isHexChar).length
      (if 64 ≤ run.length then run.take 12 else run) ++ shorten_go rest
    else c :: shorten_go cs
termination_by cs => cs.length
decreasing_by
  all_goals simp only [List.length_drop, List.length_cons]
  all_goals omega

/-- `Kubernetes._shorten_name(name)` (lines 143-146). -/
def shorten_name (s : String) : String :=
  String.mk (shorten_go s.toList)

/-- `spec` of a subcontainer record: capability flags plus the orchestrator
label mapping. -/
structure SpecRec where
  labels : Option (List (String × String))
  has_filesystem : Option Bool
  has_network : Option Bool
deriving Inhabited

/-- One subcontainer record from the cAdvisor metrics endpoint. -/
structure Subcontainer where
  name : Option String
  aliases : Option (List String)
  spec : Option SpecRec
  stats : Option (List MetricData)
deriving Inhabited

/-- The shared alias block of both tag resolvers (lines 166-169 and
192-195): when alias publication is enabled and `subcontainer.get("aliases")`
is truthy, every alias after the first becomes a `container_alias` tag with
long hex ids shortened. -/
def alias_tags (cfg : Config) (sub : Subcontainer) : List String :=
  if cfg.publish_aliases then
    match sub.aliases with
    | some (_ :: rest) => rest.map (fun a => "container_alias:" ++ shorten_name a)
    | _ => []
  else []

/-- `Kubernetes._get_post_1_2_tags(cont_labels, subcontainer, kube_labels)`
(lines 148-171).  Both label lookups are plain dict indexing and raise
`KeyError` when absent (the caller dispatches here only when both keys are
present). -/
def get_post_1_2_tags (cfg : Config) (cont_labels : List (String × String))
    (sub : Subcontainer) (kube_labels : List (String × List String)) :
    Except PyExn (List String) :=
  match alookup cont_labels POD_NAME_LABEL with
  | none => Except.error PyExn.keyError
  | some pod_name =>
    match alookup cont_labels NAMESPACE_LABEL with
    | none => Except.error PyExn.keyError
    | some pod_namespace =>
      let tags := ["pod_name:" ++ pod_namespace ++ "/" ++ pod_name,
                   "kube_namespace:" ++ pod_namespace]
      let kube_labels_key := pod_namespace ++ "/" ++ pod_name
      let tags := tags ++
        (match alookup kube_labels kube_labels_key with
         | some (t :: ts) => t :: ts
         | _ => [])
      let tags := tags ++
        (if pyHasChar pod_name '-' then
          ["kube_replication_controller:" ++
            String.intercalate "-" (pySplit '-' pod_name).dropLast]
         else [])
      Except.ok (tags ++ alias_tags cfg sub)

/-- `Kubernetes._get_pre_1_2_tags(cont_labels, subcontainer, kube_labels)`
(lines 173-197).  Under the legacy schema the pod-name label value is looked
up verbatim in the kube label index, and a replication-controller name
containing `/` is split once into a namespace part and a controller part. -/
def get_pre_1_2_tags (cfg : Config) (cont_labels : List (String × String))
    (sub : Subcontainer) (kube_labels : List (String × List String)) :
    Except PyExn (List String) :=
  match alookup cont_labels POD_NAME_LABEL with
  | none => Except.error PyExn.keyError
  | some pod_name =>
    let tags := ["pod_name:" ++ pod_name]
    let tags := tags ++
      (match alookup kube_labels pod_name with
       | some (t :: ts) => t :: ts
       | _ => [])
    let tags := tags ++
      (if pyHasChar pod_name '-' then
        let rc := String.intercalate "-" (pySplit '-' pod_name).dropLast
        if pyHasChar rc '/' then
          let parts := pySplit '/' rc
          ["kube_namespace:" ++ parts.headD "",
           "kube_replication_controller:" ++ String.intercalate "/" parts.tail]
        else ["kube_replication_controller:" ++ rc]
       else [])
    Except.ok (tags ++ alias_tags cfg sub)

/-- Python `float(x)` on a decoded metrics value: numbers pass through
(`True`/`False` become `1.0`/`0.0`); containers raise `TypeError`.  A
numeric string would parse in Python; the metrics documents carry numbers
at these sites, so strings are mapped to the parse-failure `ValueError`. -/
def MetricData.asFloat : MetricData → Except PyExn Rat
  | MetricData.num v => Except.ok v
  | MetricData.bool b => Except.ok (if b then 1 else 0)
  | MetricData.str _ => Except.error PyExn.valueError
  | MetricData.dict _ => Except.error PyExn.typeError
  | MetricData.list _ => Except.error PyExn.typeError

/-- Python `d[k]` on a decoded metrics node: key lookup on a dict
(`KeyError` when absent), `TypeError` on anything else. -/
def MetricData.pyIndex (dat : MetricData) (k : String) : Except PyExn MetricData :=
  match dat with
  | MetricData.dict fields =>
    match alookup fields k with
    | some v => Except.ok v
    | none => Except.error PyExn.keyError
  | _ => Except.error PyExn.typeError

/-- Python `x[-1]` on a decoded metrics node: last element of a list
(`IndexError` when empty), last character of a string, `KeyError` on a dict
(`-1` is not a key), `TypeError` on numbers. -/
def MetricData.pyIndexLast : MetricData → Except PyExn MetricData
  | MetricData.list es =>
    match pyLast es with
    | Except.ok e => Except.ok e
    | Except.error e => Except.error e
  | MetricData.str s =>
    match s.toList.getLast? with
    | some c => Except.ok (MetricData.str (String.mk [c]))
    | none => Except.error PyExn.indexError
  | MetricData.dict _ => Except.error PyExn.keyError
  | MetricData.num _ => Except.error PyExn.typeError
  | MetricData.bool _ => Except.error PyExn.typeError

/-- `NET_ERRORS`. -/
def NET_ERRORS : List String := ["rx_errors", "tx_errors", "rx_dropped", "tx_dropped"]

/-- `sum(float(net[x]) for x in NET_ERRORS)`. -/
def net_errors_sum (net : MetricData) : Except PyExn Rat :=
  NET_ERRORS.foldlM
    (fun acc x => do
      let v ← net.pyIndex x
      let f ← v.asFloat
      pure (acc + f))
    (0 : Rat)

/-- The `try: cont_labels = subcontainer['spec']['labels'] except KeyError:
cont_labels = {}` block of `_update_container_metrics` (lines 211-215): a
missing `spec` or missing `labels` key is caught and yields the empty
mapping. -/
def cont_labels_of (sub : Subcontainer) : List (String × String) :=
  match sub.spec with
  | none => []
  | some sp => sp.labels.getD []

/-- `Kubernetes._update_container_metrics(instance, subcontainer, kube_labels)`
(lines 199-244).  Emission is modelled by the returned point list; the
second component is `some e` when an uncaught exception escapes (the
caller `_update_metrics` catches it per container), in which case the
points already emitted stand.  `subcontainer['name']` and
`subcontainer['stats']` are plain dict indexings; the `spec`/`labels`
lookups sit in a `try/except KeyError` and default to `{}`. -/
def update_container_metrics (cfg : Config) (instance_tags : List String)
    (sub : Subcontainer) (kube_labels : List (String × List String)) :
    List Point × Option PyExn :=
  let name_r : Except PyExn String :=
    match sub.aliases.getD [] with
    | a :: _ => Except.ok a
    | [] =>
      match sub.name with
      | some nm => Except.ok nm
      | none => Except.error PyExn.keyError
  match name_r with
  | Except.error e => ([], some e)
  | Except.ok container_name =>
    let tags := instance_tags ++ ["container_name:" ++ container_name]
    let cont_labels := cont_labels_of sub
    let schema_r : Except PyExn (List String) :=
      if (alookup cont_labels NAMESPACE_LABEL).isSome
          && (alookup cont_labels POD_NAME_LABEL).isSome then
        get_post_1_2_tags cfg cont_labels sub kube_labels
      else if (alookup cont_labels POD_NAME_LABEL).isSome then
        get_pre_1_2_tags cfg cont_labels sub kube_labels
      else Except.ok ["pod_name:no_pod"]
    match schema_r with
    | Except.error e => ([], some e)
    | Except.ok schema_tags =>
      let tags := tags ++ schema_tags
      match sub.stats with
      | none => ([], some PyExn.keyError)
      | some stats_list =>
        match pyLast stats_list with
        | Except.error e => ([], some e)
        | Except.ok stats =>
          let (pts, pexn) := publish_raw_metrics cfg "kubernetes" stats tags 0
          match pexn with
          | some e => (pts, some e)
          | none =>
            let fs_r : Except PyExn (List Point) :=
              if (match sub.spec with
                  | some sp => sp.has_filesystem
                  | none => none) = some true then do
                let fsl ← stats.pyIndex "filesystem"
                let fs ← fsl.pyIndexLast
                let u ← (← fs.pyIndex "usage").asFloat
                let c ← (← fs.pyIndex "capacity").asFloat
                if c = 0 then Except.error PyExn.zeroDivisionError
                else pure [⟨"kubernetes.filesystem.usage_pct", u / c, tags, publishGaugeSem cfg⟩]
              else pure []
            match fs_r with
            | Except.error e => (pts, some e)
            | Except.ok fs_pts =>
              let net_r : Except PyExn (List Point) :=
                if (match sub.spec with
                    | some sp => sp.has_network
                    | none => none) = some true then do
                  let net ← stats.pyIndex "network"
                  let s ← net_errors_sum net
                  pure [⟨"kubernetes.network_errors", s, tags, publishRateSem cfg⟩]
                else pure []
              match net_r with
              | Except.error e => (pts ++ fs_pts, some e)
              | Except.ok net_pts => (pts ++ fs_pts ++ net_pts, none)

/-- The allow-list of `_update_pods_metrics`. -/
def supported_kinds : List String :=
  ["DaemonSet", "Deployment", "Job", "ReplicationController", "ReplicaSet"]

/-- The body of the `try` block of `_update_pods_metrics` for one pod
(lines 275-281): decode the `kubernetes.io/created-by` annotation, look up
`reference.kind`, and when the kind is supported return the controller name
to increment (`none` when the kind is unsupported).  Every failed dict
lookup raises `KeyError` (the only class the `except` clause catches);
a parse failure raises `ValueError`; indexing a non-object or using an
unhashable counter key raises `TypeError`. -/
def pod_created_by (pod : Pod) : Except PyExn (Option Json) := do
  let md ← match pod.metadata with
    | some md => Except.ok md
    | none => Except.error PyExn.keyError
  let anns ← match md.ann with
    | some a => Except.ok a
    | none => Except.error PyExn.keyError
  let raw ← match alookup anns "kubernetes.io/created-by" with
    | some r => Except.ok r
    | none => Except.error PyExn.keyError
  let created_by ← json_loads raw
  let ref ← created_by.pyIndex "reference"
  let kind ← ref.pyIndex "kind"
  let kind_supported :=
    match kind with
    | Json.str s => supported_kinds.contains s
    | _ => false
  if kind_supported then do
    let ref2 ← created_by.pyIndex "reference"
    let name ← ref2.pyIndex "name"
    let key ← json_check_hashable name
    pure (some key)
  else pure none

/-- `controllers_map[name] += 1` on a `defaultdict(int)`. -/
def cm_incr (m : List (Json × Nat)) (key : Json) : List (Json × Nat) :=
  match m with
  | [] => [(key, 1)]
  | (k, n) :: rest =>
    if json_scalar_eq k key then (k, n + 1) :: rest else (k, n) :: cm_incr rest key

/-- The pod loop of `_update_pods_metrics` (lines 274-281): `KeyError` is
caught and the pod skipped (`continue`); any other exception propagates and
aborts the whole call. -/
def upm_pods_loop : List Pod → List (Json × Nat) → List (Json × Nat) × Option PyExn
  | [], m => (m, none)
  | pod :: rest, m =>
    match pod_created_by pod with
    | Except.error PyExn.keyError => upm_pods_loop rest m
    | Except.error e => (m, some e)
    | Except.ok none => upm_pods_loop rest m
    | Except.ok (some key) => upm_pods_loop rest (cm_incr m key)

/-- `Kubernetes._update_pods_metrics(instance, pods)` (lines 264-287):
count running pods per supported controller, then emit one
`kubernetes.pods.running` gauge per controller with the instance tags plus
`kube_replication_controller:<name>`.  Returns the emitted gauges, or the
escaped exception (in which case no gauge was emitted, the raise happening
inside the counting loop). -/
def update_pods_metrics (cfg : Config) (instance_tags : List String)
    (pods : PodsList) : List Point × Option PyExn :=
  match pods.items with
  | none => ([], some PyExn.keyError)
  | some items =>
    let (m, exn) := upm_pods_loop items []
    match exn with
    | some e => ([], some e)
    | none =>
      (m.map (fun kv =>
        ⟨"kubernetes.pods.running", (kv.2 : Rat),
         instance_tags ++ ["kube_replication_controller:" ++ json_format kv.1],
         publishGaugeSem cfg⟩), none)

/-- Agent service-check status (`AgentCheck.OK` / `AgentCheck.CRITICAL`). -/
inductive SCStatus where
  | ok
  | critical
deriving DecidableEq, Repr

/-- One emitted service check result. -/
structure SvcCheck where
  name : String
  status : SCStatus
  message : Option String
deriving DecidableEq, Repr

/-- `service_check_base` of `_perform_kubelet_checks`. -/
def service_check_base : String := "kubernetes.kubelet.check"

/-- `re.match('\[(.)\]([^\s]+) (.*)?', line)`: the line must start with
`[`, one non-newline character, `]`, then a maximal nonempty run of
non-whitespace characters followed by a literal space.  Returns the status
character (group 1) and the component name (group 2); `None` otherwise. -/
def matchLineChars : List Char → Option (Char × String)
  | '[' :: c :: ']' :: rest =>
    if c == '\n' then none
    else
      let run := rest.takeWhile (fun ch => !ch.isWhitespace)
      let after := rest.drop run.length
      if !run.isEmpty && after.head? == some ' ' then some (c, String.mk run)
      else none
  | _ => none

/-- The line loop of `_perform_kubelet_checks` (lines 72-88): lines
mentioning `hostname` are skipped, non-matching lines are skipped, a `+`
status emits an OK per-component check, anything else emits a CRITICAL one
and clears the overall-OK flag.  Returns the per-component checks in order
and the final flag. -/
def kubelet_lines_loop : List String → List SvcCheck × Bool
  | [] => ([], true)
  | line :: rest =>
    if pyHasSubstr line "hostname" then kubelet_lines_loop rest
    else
      match matchLineChars line.toList with
      | none => kubelet_lines_loop rest
      | some (status, component) =>
        let name := service_check_base ++ "." ++ component
        let (scs, all_ok) := kubelet_lines_loop rest
        if status == '+' then (⟨name, SCStatus.ok, none⟩ :: scs, all_ok)
        else (⟨name, SCStatus.critical, none⟩ :: scs, false)

/-- `Kubernetes._perform_kubelet_checks(url)` (lines 67-99).  The HTTP fetch
is passed in as its outcome: `Except.error e` is a raised network/parse
error whose text is `e`, `Except.ok lines` is the fetched report split into
lines.  On a raised fetch the single aggregate CRITICAL check carrying the
error text is emitted; otherwise the per-component checks are followed by
the aggregate check derived from the overall-OK flag. -/
def perform_kubelet_checks (fetch : Except String (List String)) : List SvcCheck :=
  match fetch with
  | Except.error e =>
    [⟨service_check_base, SCStatus.critical, some ("Kubelet check failed: " ++ e)⟩]
  | Except.ok lines =>
    let (scs, all_ok) := kubelet_lines_loop lines
    scs ++ [⟨service_check_base, (if all_ok then SCStatus.ok else SCStatus.critical), none⟩]

/-- `event['involvedObject']`. -/
structure InvolvedObj where
  name : Option String
  uid : Option String
deriving DecidableEq, Repr

/-- `event['source']`. -/
structure EventSource where
  component : Option String
  host : Option String
deriving DecidableEq, Repr

/-- One event from the cluster events endpoint.  `lastTimestamp` holds the
epoch value of the already-parsed `%Y-%m-%dT%H:%M:%SZ` string
(`int(time.mktime(time.strptime(...)))`); a missing field makes the parse
raise (`strptime(None)` is a `TypeError`). -/
structure KEvent where
  lastTimestamp : Option Nat
  involvedObject : Option InvolvedObj
  message : Option String
  reason : Option String
  source : Option EventSource
deriving DecidableEq, Repr

/-- The notification record handed to `self.event(...)` (lines 332-340). -/
structure DdEvent where
  timestamp : Nat
  host : String
  event_type : String
  msg_title : String
  msg_text : String
  source_type_name : String
  event_object : String
deriving DecidableEq, Repr

/-- Python `'{}'.format(x)` on an optional string: `None` prints as
`"None"`. -/
def pyStr : Option String → String
  | none => "None"
  | some s => s

/-- Construction of one notification in `_process_events` (lines 326-340)
for an event that passed both filters.  When a source is present, the
message has the `Source:` line appended — which raises `TypeError` when the
message is `None`, since Python cannot add a string to `None`. -/
def make_dd_event (kube_host node_name : String) (last_ts : Nat) (ev : KEvent)
    (obj : InvolvedObj) : Except PyExn DdEvent := do
  let title := pyStr obj.name ++ " " ++ pyStr ev.reason ++ " on " ++ node_name
  let message_str ← match ev.source with
    | none => Except.ok (pyStr ev.message)
    | some s =>
      match ev.message with
      | none => Except.error PyExn.typeError
      | some m =>
        Except.ok (m ++ "\nSource: " ++ s.component.getD "" ++ " " ++ s.host.getD "" ++ "\n")
  let msg_body := "%%%\n" ++ title ++ "\n```\n" ++ message_str ++ "\n```\n%%%"
  pure
    { timestamp := last_ts
      host := kube_host
      event_type := "kubernetes"
      msg_title := title
      msg_text := msg_body
      source_type_name := "kubernetes"
      event_object := "kubernetes:" ++ pyStr obj.name }

/-- The event loop of `_process_events` (lines 318-342): an event whose
parsed `lastTimestamp` is strictly below `last_ts` is skipped; an event
without a truthy `involvedObject`, or whose `involvedObject.uid` is not
among the local pod UIDs, is skipped; the rest are emitted in order.  An
exception raised mid-loop aborts it, keeping the events already emitted. -/
def events_loop (kube_host node_name : String) (last_ts : Nat)
    (pod_uids : List String) : List KEvent → List DdEvent × Option PyExn
  | [] => ([], none)
  | ev :: rest =>
    match ev.lastTimestamp with
    | none => ([], some PyExn.typeError)
    | some event_ts =>
      if event_ts < last_ts then events_loop kube_host node_name last_ts pod_uids rest
      else
        match ev.involvedObject with
        | none => events_loop kube_host node_name last_ts pod_uids rest
        | some obj =>
          if (match obj.uid with
              | some u => pod_uids.contains u
              | none => false) then
            match make_dd_event kube_host node_name last_ts ev obj with
            | Except.error e => ([], some e)
            | Except.ok d =>
              let (ds, exn) := events_loop kube_host node_name last_ts pod_uids rest
              (d :: ds, exn)
          else events_loop kube_host node_name last_ts pod_uids rest

/-- Result of one `_process_events` invocation: the notifications emitted,
the exception that escaped (if any), and the value stored into
`self._last_event_collection_ts[instance.get('port')]`. -/
structure ProcessEventsResult where
  emitted : List DdEvent
  exn : Option PyExn
  new_last_ts : Nat
deriving DecidableEq, Repr

/-- `Kubernetes._process_events(instance, pods_list)` (lines 289-342).

Modelled from the spec: the source calls `self.kubeutil.get_node_info()`
and `self.kubeutil.extract_meta(pods, 'uid')`, which are absent from
src/utils/kubeutil.py.  Per the spec, `get_node_info` resolves the local
host's IP and name — passed in here as `node_ip` and `node_name` — and the
UID collection ("then collect UIDs") coincides with the
`KubeUtil.extract_uids` helper that is present in the source, which is used
for it.  The events fetch is passed in as its decoded `items` field
(`events.get('items') or []`); `now` is the wall clock read
`int(time.time())` at line 315.

The source sets `last_ts = now`, stores it into the per-port map
`_last_event_collection_ts` (whose previous value `prev_ts` it never
reads), and filters events against `last_ts` — i.e. against the current
wall clock, not the previous cycle's watermark. -/
def process_events (kube_host node_name node_ip : String) (now : Nat)
    (prev_ts : Option Nat) (pods_list : PodsList)
    (event_items : Option (List KEvent)) : ProcessEventsResult :=
  let pods := filter_pods_list pods_list node_ip
  let pod_uids := extract_uids pods
  let last_ts := now
  let _ := prev_ts
  let (ds, exn) := events_loop kube_host node_name last_ts pod_uids (event_items.getD [])
  { emitted := ds, exn := exn, new_last_ts := last_ts }

/-- A dict nested `n` levels deep around `x`, for exercising the depth
guard on arbitrarily deep documents. -/
def nest_dict : Nat → MetricData → MetricData
  | 0, x => x
  | n + 1, x => MetricData.dict [("k", nest_dict n x)]

/-! Concrete fixtures used by witnesses and counterexamples. -/

/-- A configuration with the default gauge/rate patterns of the check
(prefixed with the `kubernetes.` namespace as `check` does) and default
switches. -/
def default_cfg : Config :=
  { max_depth := 10
    enabled_rates :=
      ["kubernetes.diskio.io_service_bytes.stats.total",
       "kubernetes.network.??_bytes", "kubernetes.cpu.*.total"]
    enabled_gauges := ["kubernetes.memory.usage", "kubernetes.filesystem.usage"]
    use_histogram := false
    publish_aliases := false }

/-- A configuration whose rate and gauge pattern sets both match
`kubernetes.cpu.total`. -/
def overlap_cfg : Config :=
  { max_depth := 10
    enabled_rates := ["kubernetes.cpu.*"]
    enabled_gauges := ["kubernetes.cpu.*"]
    use_histogram := false
    publish_aliases := false }

/-- A pod running on host 10.0.0.1 with uid `u1`. -/
def local_pod : Pod :=
  { metadata := some
      { name := some "p", namespc := some "ns", uid := some "u1",
        labels := some [("a", "b")], ann := none }
    status := some { hostIP := some "10.0.0.1" } }

/-- A pod list holding only `local_pod`. -/
def local_pods_list : PodsList := { items := some [local_pod], extra := [("kind", "PodList")] }

/-- An event `1` second before the previous-cycle watermark `1000`, local uid. -/
def c1_event_before : KEvent :=
  { lastTimestamp := some 999, involvedObject := some { name := some "n", uid := some "u1" },
    message := some "m", reason := some "r", source := none }

/-- An event `1` second after the previous-cycle watermark `1000`, local uid. -/
def c1_event_after : KEvent :=
  { lastTimestamp := some 1001, involvedObject := some { name := some "n", uid := some "u1" },
    message := some "m", reason := some "r", source := none }

/-- A pod carrying a created-by annotation that is not valid JSON. -/
def c2_bad_pod : Pod :=
  { metadata := some
      { name := some "bad", namespc := some "default", uid := some "u-bad",
        labels := none, ann := some [("kubernetes.io/created-by", JsonText.invalid)] }
    status := none }

/-- A pod owned by `ReplicationController` `rc` through a well-formed
created-by annotation. -/
def c2_good_pod : Pod :=
  { metadata := some
      { name := some "good", namespc := some "default", uid := some "u-good",
        labels := none,
        ann := some [("kubernetes.io/created-by",
          JsonText.valid (Json.obj [("reference",
            Json.obj [("kind", Json.str "ReplicationController"),
                      ("name", Json.str "rc")])]))] }
    status := none }

/-- A pod with no annotations at all: its created-by lookup raises
`KeyError`, the class the loop catches. -/
def c2_skip_pod : Pod :=
  { metadata := some
      { name := some "plain", namespc := some "default", uid := some "u-plain",
        labels := none, ann := none }
    status := none }

/-- Container labels carrying only the legacy pod-name label with the bare
pod name `p`. -/
def c5_cont_labels : List (String × String) := [(POD_NAME_LABEL, "p")]

/-- An empty subcontainer record (no aliases, so no alias tags). -/
def empty_sub : Subcontainer := { name := some "cid", aliases := none, spec := none, stats := none }

/-- A subcontainer whose `stats` list is empty. -/
def c9_sub : Subcontainer :=
  { name := some "cid", aliases := some ["web"], spec := none, stats := some [] }

/-- The notification the loop builds for `c6_event` below. -/
def c6_dd : DdEvent :=
  { timestamp := 3, host := "h", event_type := "kubernetes",
    msg_title := "n r on node",
    msg_text := "%%%\n" ++ "n r on node" ++ "\n```\n" ++ "m" ++ "\n```\n%%%",
    source_type_name := "kubernetes",
    event_object := "kubernetes:n" }

/-- A local event with timestamp at or above the collection clock `3`. -/
def c6_event : KEvent :=
  { lastTimestamp := some 5, involvedObject := some { name := some "n", uid := some "u1" },
    message := some "m", reason := some "r", source := none }

/-- A pod list holding one pod with namespace `ns`, name `p` and a single
label, and nothing else. -/
def c5_single_pl : PodsList :=
  { items := some [{ metadata := some { name := some "p", namespc := some "ns", uid := none, labels := some [("a", "b")], ann := none }, status := none }], extra := [] }

/-!  Theorems.  -/

/-- Skipping lemma for the pod loop of `_update_pods_metrics`: a pod whose
created-by step raises `KeyError` contributes nothing and the loop continues
unchanged. -/
theorem upm_pods_loop_skip (xs ys : List Pod) (p : Pod)
    (hp : pod_created_by p = Except.error PyExn.keyError) :
    ∀ m, upm_pods_loop (xs ++ p :: ys) m = upm_pods_loop (xs ++ ys) m := by
  induction xs with
  | nil => intro m; simp [upm_pods_loop, hp]
  | cons x xs ih =>
    intro m
    simp only [List.cons_append, upm_pods_loop]
    cases hx : pod_created_by x with
    | error e => cases e <;> simp [ih]
    | ok o => cases o <;> simp [ih]

/-- Claim C2, counterexample: with one pod carrying a created-by annotation
that is not valid JSON, `_update_pods_metrics` raises an uncaught
`ValueError` and emits no gauge at all — even though a second pod is validly
owned by `ReplicationController` `rc`, whose gauge is emitted when the
malformed pod is absent.  The claim's "logged and skipped ... one
pods.running gauge per controller is still emitted" fails on this input. -/
theorem c2_counterexample :
    update_pods_metrics default_cfg [] { items := some [c2_good_pod, c2_bad_pod], extra := [] }
      = ([], some PyExn.valueError)
    ∧ update_pods_metrics default_cfg [] { items := some [c2_good_pod], extra := [] }
      = ([⟨"kubernetes.pods.running", 1, ["kube_replication_controller:rc"], Sem.gauge⟩], none) :=
  ⟨rfl, rfl⟩

/-- Claim C2, amended: a pod whose created-by lookup raises `KeyError`
(missing annotation or missing keys in the parsed annotation) is silently
skipped by `_update_pods_metrics` and the cycle continues exactly as if the
pod were absent: counts for all other pods and the emitted gauges are
unchanged.  (An annotation that is not valid JSON is not covered: it raises
an uncaught `ValueError`, per the counterexample.) -/
theorem c2_amended_keyerror_skipped (cfg : Config) (instance_tags : List String)
    (extra : List (String × String)) (xs ys : List Pod) (p : Pod)
    (hp : pod_created_by p = Except.error PyExn.keyError) :
    update_pods_metrics cfg instance_tags ⟨some (xs ++ p :: ys), extra⟩
      = update_pods_metrics cfg instance_tags ⟨some (xs ++ ys), extra⟩ := by
  simp [update_pods_metrics, upm_pods_loop_skip xs ys p hp]

/-- Witness for the amended C2 at a concrete pod list. -/
theorem c2_witness :
    pod_created_by c2_skip_pod = Except.error PyExn.keyError
    ∧ update_pods_metrics default_cfg [] ⟨some ([c2_good_pod] ++ c2_skip_pod :: [c2_good_pod]), []⟩
      = update_pods_metrics default_cfg [] ⟨some ([c2_good_pod] ++ [c2_good_pod]), []⟩ :=
  ⟨rfl, c2_amended_keyerror_skipped default_cfg [] [] [c2_good_pod] [c2_good_pod] c2_skip_pod rfl⟩

/-- Claim C1: `_process_events` compares each event's parsed `lastTimestamp`
with the wall clock captured in the same cycle, not with the previous
cycle's stored watermark.  With previous watermark 1000 and wall clock 1002,
the events at 999 and 1001 (both with a local `involvedObject.uid`) are BOTH
suppressed — the claim requires the 1001 event to be emitted — and the
result does not change when the stored watermark is replaced by 0. -/
theorem c1_watermark_ignored :
    (process_events "h" "node" "10.0.0.1" 1002 (some 1000) local_pods_list
        (some [c1_event_before, c1_event_after])).emitted = []
    ∧ process_events "h" "node" "10.0.0.1" 1002 (some 1000) local_pods_list
        (some [c1_event_before, c1_event_after])
      = process_events "h" "node" "10.0.0.1" 1002 (some 0) local_pods_list
        (some [c1_event_before, c1_event_after]) := ⟨rfl, rfl⟩

/-- Claim C4: when the fetch of the health endpoint raises, exactly one
aggregate CRITICAL service check is emitted, carrying the error text in its
message, and no per-component check is emitted: every check emitted in that
invocation is the aggregate one. -/
theorem c4_fetch_failure :
    (∀ e, perform_kubelet_checks (Except.error e)
      = [⟨service_check_base, SCStatus.critical, some ("Kubelet check failed: " ++ e)⟩])
    ∧ (∀ e sc, sc ∈ perform_kubelet_checks (Except.error e) →
        sc.name = service_check_base ∧ sc.status = SCStatus.critical
          ∧ sc.message = some ("Kubelet check failed: " ++ e)) := by
  refine ⟨fun e => rfl, fun e sc hsc => ?_⟩
  simp only [perform_kubelet_checks, List.mem_singleton] at hsc
  subst hsc
  exact ⟨rfl, rfl, rfl⟩

/-- Witness for C4 at a concrete error text. -/
theorem c4_witness :
    (⟨service_check_base, SCStatus.critical, some "Kubelet check failed: connection refused"⟩ : SvcCheck)
        ∈ perform_kubelet_checks (Except.error "connection refused")
    ∧ (⟨service_check_base, SCStatus.critical, some "Kubelet check failed: connection refused"⟩ : SvcCheck).name
        = service_check_base :=
  ⟨by decide,
   (c4_fetch_failure.2 "connection refused" _ (by decide)).1⟩

/-- Claim C10: `filter_pods_list` leaves in `items` exactly the pods whose
`status.hostIP` equals the given host IP, as a subsequence of the original
items in their original order, and every other key of the pod-list dict is
untouched; the returned record is the caller's post-state of the mutated
argument (the source returns the argument itself after the in-place
update). -/
theorem c10_filter_in_place (pods_list : PodsList) (host_ip : String) :
    (filter_pods_list pods_list host_ip).items
      = some ((pods_list.items.getD []).filter
          (fun pod => (pod.status.getD default).hostIP == some host_ip))
    ∧ List.Sublist ((pods_list.items.getD []).filter
          (fun pod => (pod.status.getD default).hostIP == some host_ip))
        (pods_list.items.getD [])
    ∧ (filter_pods_list pods_list host_ip).extra = pods_list.extra :=
  ⟨rfl, List.filter_sublist _, rfl⟩

/-- Unfolding the flattener one level into a nonempty list. -/
theorem publish_go_list_cons (cfg : Config) (g : Nat) (metric : String)
    (e : MetricData) (es : List MetricData) (tags : List String) :
    publish_go cfg (g + 1) metric (MetricData.list (e :: es)) tags
      = publish_go cfg g metric ((e :: es).getLast (List.cons_ne_nil e es)) tags := rfl

/-- Claim C7: below the depth guard, flattening a list equals flattening its
last element at the next depth, for EVERY choice of the leading elements —
they are never visited and contribute no points. -/
theorem c7_list_last (cfg : Config) (metric : String) (tags : List String)
    (xs : List MetricData) (e : MetricData) (depth : Nat) (h : depth < cfg.max_depth) :
    publish_raw_metrics cfg metric (MetricData.list (xs ++ [e])) tags depth
      = publish_raw_metrics cfg metric e tags (depth + 1) := by
  have hg : cfg.max_depth - depth = (cfg.max_depth - (depth + 1)) + 1 := by omega
  unfold publish_raw_metrics
  rw [hg]
  cases xs with
  | nil => simp [publish_go]
  | cons x xs' =>
    rw [List.cons_append, publish_go_list_cons]
    have hl : (x :: (xs' ++ [e])).getLast (List.cons_ne_nil x (xs' ++ [e])) = e :=
      List.getLast_append_singleton (x :: xs')
    rw [hl]

/-- Witness for C7 with distinguishable sentinel leading elements. -/
theorem c7_witness :
    (0 : Nat) < default_cfg.max_depth
    ∧ publish_raw_metrics default_cfg "kubernetes.memory.usage"
        (MetricData.list ([MetricData.num 111, MetricData.str "sentinel"] ++ [MetricData.num 5])) [] 0
      = publish_raw_metrics default_cfg "kubernetes.memory.usage" (MetricData.num 5) [] 1 :=
  ⟨by decide,
   c7_list_last default_cfg "kubernetes.memory.usage" []
     [MetricData.num 111, MetricData.str "sentinel"] (MetricData.num 5) 0 (by decide)⟩

/-- With no more depth budget than nesting levels, a dict nest flattens to
nothing, with no exception. -/
theorem publish_go_nest (cfg : Config) (x : MetricData) :
    ∀ (k g : Nat), g ≤ k → ∀ (metric : String) (tags : List String),
      publish_go cfg g metric (nest_dict k x) tags = ([], none) := by
  intro k
  induction k with
  | zero =>
    intro g hg metric tags
    interval_cases g
    rfl
  | succ k ih =>
    intro g hg metric tags
    cases g with
    | zero => rfl
    | succ g' =>
      have hg' : g' ≤ k := by omega
      simp [nest_dict, publish_go, ih g' hg']

/-- Claim C8: once `depth` reaches `max_depth` the flattener returns
normally with no points and no exception, whatever the node; consequently a
structure nested at least `max_depth` dict levels deep yields zero points
and no error, regardless of what sits below the cutoff (even a node that
would raise). -/
theorem c8_depth_guard :
    (∀ (cfg : Config) (metric : String) (dat : MetricData) (tags : List String) (depth : Nat),
      cfg.max_depth ≤ depth →
      publish_raw_metrics cfg metric dat tags depth = ([], none))
    ∧ (∀ (cfg : Config) (metric : String) (tags : List String) (x : MetricData) (n : Nat),
      cfg.max_depth ≤ n →
      publish_raw_metrics cfg metric (nest_dict n x) tags 0 = ([], none)) := by
  constructor
  · intro cfg metric dat tags depth h
    unfold publish_raw_metrics
    rw [Nat.sub_eq_zero_of_le h]
    rfl
  · intro cfg metric tags x n h
    unfold publish_raw_metrics
    exact publish_go_nest cfg x n (cfg.max_depth - 0) (by omega) metric tags

/-- Witness for C8 with `max_depth = 2` and a nest of depth 3 around a
numeric leaf matching the rate pattern. -/
theorem c8_witness :
    (2 : Nat) ≤ 3
    ∧ publish_raw_metrics ⟨2, ["kubernetes.*"], [], false, false⟩ "kubernetes"
        (nest_dict 3 (MetricData.num 7)) [] 0 = ([], none)
    ∧ ((⟨2, ["kubernetes.*"], [], false, false⟩ : Config).max_depth ≤ 2)
    ∧ publish_raw_metrics ⟨2, ["kubernetes.*"], [], false, false⟩ "kubernetes"
        (MetricData.num 7) [] 2 = ([], none) :=
  ⟨by decide,
   c8_depth_guard.2 ⟨2, ["kubernetes.*"], [], false, false⟩ "kubernetes" [] (MetricData.num 7) 3 (by decide),
   by decide,
   c8_depth_guard.1 ⟨2, ["kubernetes.*"], [], false, false⟩ "kubernetes" (MetricData.num 7) [] 2 (by decide)⟩

/-- Below the depth guard, a numeric leaf publishes exactly its leaf points. -/
theorem publish_num_leaf (cfg : Config) (P : String) (v : Rat) (tags : List String)
    (depth : Nat) (hdepth : depth < cfg.max_depth) :
    publish_raw_metrics cfg P (MetricData.num v) tags depth
      = (leaf_points cfg P v tags, none) := by
  have hg : cfg.max_depth - depth = (cfg.max_depth - depth - 1) + 1 := by omega
  unfold publish_raw_metrics
  rw [hg]
  rfl

/-- Claim C3: at a numeric leaf the rate patterns are tested before the
gauge patterns — a name matching patterns of both sets yields exactly one
point, a rate; a name matching neither set yields no point; and a leaf
never yields more than one point. -/
theorem c3_rate_precedence (cfg : Config) (P : String) (v : Rat) (tags : List String)
    (depth : Nat) (hdepth : depth < cfg.max_depth) (hh : cfg.use_histogram = false) :
    (cfg.enabled_rates.any (fun pat => fnmatch P pat) = true →
      cfg.enabled_gauges.any (fun pat => fnmatch P pat) = true →
      publish_raw_metrics cfg P (MetricData.num v) tags depth = ([⟨P, v, tags, Sem.rate⟩], none))
    ∧ (cfg.enabled_rates.any (fun pat => fnmatch P pat) = false →
      cfg.enabled_gauges.any (fun pat => fnmatch P pat) = false →
      publish_raw_metrics cfg P (MetricData.num v) tags depth = ([], none))
    ∧ (publish_raw_metrics cfg P (MetricData.num v) tags depth).1.length ≤ 1 := by
  rw [publish_num_leaf cfg P v tags depth hdepth]
  refine ⟨?_, ?_, ?_⟩
  · intro hr hgg
    have hne : cfg.enabled_rates.isEmpty = false := by
      cases hrl : cfg.enabled_rates with
      | nil => rw [hrl] at hr; simp at hr
      | cons a l => rfl
    simp [leaf_points, hne, hr, publishRateSem, hh]
  · intro hr hgg
    simp [leaf_points, hr, hgg]
  · simp only [leaf_points]
    split
    · simp
    · split
      · simp
      · simp

/-- Witness for C3 on a name matching a rate pattern and a gauge pattern. -/
theorem c3_witness :
    (0 : Nat) < overlap_cfg.max_depth ∧ overlap_cfg.use_histogram = false
    ∧ overlap_cfg.enabled_rates.any (fun pat => fnmatch "kubernetes.cpu.total" pat) = true
    ∧ overlap_cfg.enabled_gauges.any (fun pat => fnmatch "kubernetes.cpu.total" pat) = true
    ∧ publish_raw_metrics overlap_cfg "kubernetes.cpu.total" (MetricData.num 3) ["t"] 0
        = ([⟨"kubernetes.cpu.total", 3, ["t"], Sem.rate⟩], none) :=
  ⟨by decide, rfl, by decide, by decide,
   (c3_rate_precedence overlap_cfg "kubernetes.cpu.total" 3 ["t"] 0 (by decide) rfl).1
     (by decide) (by decide)⟩

/-- When the pod-name and namespace labels are present, the post-1.2
resolver returns normally. -/
theorem get_post_1_2_tags_ok (cfg : Config) (cl : List (String × String))
    (sub : Subcontainer) (kl : List (String × List String))
    (h : (alookup cl POD_NAME_LABEL).isSome = true)
    (h2 : (alookup cl NAMESPACE_LABEL).isSome = true) :
    ∃ ts, get_post_1_2_tags cfg cl sub kl = Except.ok ts := by
  obtain ⟨pn, hpn⟩ := Option.isSome_iff_exists.mp h
  obtain ⟨ns, hns⟩ := Option.isSome_iff_exists.mp h2
  unfold get_post_1_2_tags
  rw [hpn, hns]
  exact ⟨_, rfl⟩

/-- When the pod-name label is present, the pre-1.2 resolver returns
normally. -/
theorem get_pre_1_2_tags_ok (cfg : Config) (cl : List (String × String))
    (sub : Subcontainer) (kl : List (String × List String))
    (h : (alookup cl POD_NAME_LABEL).isSome = true) :
    ∃ ts, get_pre_1_2_tags cfg cl sub kl = Except.ok ts := by
  obtain ⟨pn, hpn⟩ := Option.isSome_iff_exists.mp h
  unfold get_pre_1_2_tags
  rw [hpn]
  exact ⟨_, rfl⟩

/-- Claim C9: `_publish_raw_metrics` raises `IndexError` on an empty list
below the depth guard, and `_update_container_metrics` raises `IndexError`
whenever the subcontainer's `stats` list is empty (for any container with at
least one alias), emitting no point. -/
theorem c9_empty_list_partiality :
    (∀ (cfg : Config) (metric : String) (tags : List String) (depth : Nat),
      depth < cfg.max_depth →
      publish_raw_metrics cfg metric (MetricData.list []) tags depth
        = ([], some PyExn.indexError))
    ∧ (∀ (cfg : Config) (instance_tags : List String) (sub : Subcontainer)
        (kube_labels : List (String × List String)) (a : String) (al : List String),
      sub.aliases = some (a :: al) → sub.stats = some [] →
      update_container_metrics cfg instance_tags sub kube_labels
        = ([], some PyExn.indexError)) := by
  constructor
  · intro cfg metric tags depth h
    have hg : cfg.max_depth - depth = (cfg.max_depth - depth - 1) + 1 := by omega
    unfold publish_raw_metrics
    rw [hg]
    rfl
  · intro cfg instance_tags sub kube_labels a al ha hs
    simp only [update_container_metrics, ha, hs, Option.getD_some]
    cases hpod : (alookup (cont_labels_of sub) POD_NAME_LABEL).isSome with
    | false =>
      rw [Bool.and_false]
      rfl
    | true =>
      cases hns : (alookup (cont_labels_of sub) NAMESPACE_LABEL).isSome with
      | true =>
        obtain ⟨ts, hts⟩ := get_post_1_2_tags_ok cfg _ sub kube_labels hpod hns
        rw [hts]
        rfl
      | false =>
        obtain ⟨ts, hts⟩ := get_pre_1_2_tags_ok cfg _ sub kube_labels hpod
        rw [hts]
        rfl

/-- Witness for C9 at a subcontainer with one alias and an empty stats list. -/
theorem c9_witness :
    (0 : Nat) < default_cfg.max_depth
    ∧ publish_raw_metrics default_cfg "kubernetes" (MetricData.list []) [] 0
        = ([], some PyExn.indexError)
    ∧ c9_sub.aliases = some ("web" :: []) ∧ c9_sub.stats = some []
    ∧ update_container_metrics default_cfg [] c9_sub [] = ([], some PyExn.indexError) :=
  ⟨by decide, c9_empty_list_partiality.1 default_cfg "kubernetes" [] 0 (by decide), rfl, rfl,
   c9_empty_list_partiality.2 default_cfg [] c9_sub [] "web" [] rfl rfl⟩

/-- Claim C5, counterexample: with a pod named `p` in namespace `ns`
carrying label `a: b`, the kube label index holds only the composite key
`ns/p`; a lookup by the bare name `p` finds nothing, and the legacy
resolver given the bare pod-name label `p` produces only `pod_name:p` —
no derived label, contradicting the claim that bare-name lookup returns the
pod's derived labels. -/
theorem c5_counterexample :
    extract_kube_labels local_pods_list [] = [("ns/p", ["kube_a:b"])]
    ∧ alookup (extract_kube_labels local_pods_list []) "p" = none
    ∧ get_pre_1_2_tags default_cfg c5_cont_labels empty_sub (extract_kube_labels local_pods_list [])
      = Except.ok ["pod_name:p"] := ⟨rfl, rfl, rfl⟩

/-- Appending to an existing single-key label index extends its entry. -/
theorem kl_append_single (key tag : String) (acc : List String) :
    kl_append [(key, acc)] key tag = [(key, acc ++ [tag])] := by
  simp [kl_append]

/-- Folding one pod's labels into a single-key index accumulates the derived
tags in order under that key. -/
theorem ekl_labels_fold_single (key : String) :
    ∀ (ls : List (String × String)) (acc : List String),
      ekl_labels_fold key [] ls [(key, acc)]
        = [(key, acc ++ ls.map (fun kv => "kube_" ++ kv.1 ++ ":" ++ kv.2))] := by
  intro ls
  induction ls with
  | nil => intro acc; simp [ekl_labels_fold]
  | cons kv rest ih =>
    intro acc
    simp [ekl_labels_fold, kl_append_single, ih, List.append_assoc]

/-- Folding a nonempty label list into the empty index yields the single
composite-key entry. -/
theorem ekl_labels_fold_nil (key k v : String) (rest : List (String × String)) :
    ekl_labels_fold key [] ((k, v) :: rest) []
      = [(key, ((k, v) :: rest).map (fun kv => "kube_" ++ kv.1 ++ ":" ++ kv.2))] := by
  show ekl_labels_fold key [] rest [(key, ["kube_" ++ k ++ ":" ++ v])] = _
  rw [ekl_labels_fold_single]
  simp

/-- Claim C5, amended: `extract_kube_labels` keys the index solely by
`namespace/name`; the bare pod name finds no entry, and the legacy
resolver recovers a pod's derived labels exactly when the legacy pod-name
label value itself has the `namespace/name` form of an indexed pod. -/
theorem c5_amended_composite_key (ns n k v : String) (rest : List (String × String))
    (labels : List (String × String)) (hl : labels = (k, v) :: rest)
    (hns : ns ≠ "") (hn : n ≠ "")
    (pl : PodsList)
    (hpl : pl = { items := some [{ metadata := some { name := some n, namespc := some ns, uid := none, labels := some labels, ann := none }, status := none }], extra := [] })
    (hnodash : pyHasChar (ns ++ "/" ++ n) '-' = false)
    (cfg : Config) (hpa : cfg.publish_aliases = false) (sub : Subcontainer) :
    extract_kube_labels pl []
        = [(ns ++ "/" ++ n, labels.map (fun kv => "kube_" ++ kv.1 ++ ":" ++ kv.2))]
    ∧ alookup (extract_kube_labels pl []) n = none
    ∧ get_pre_1_2_tags cfg [(POD_NAME_LABEL, ns ++ "/" ++ n)] sub (extract_kube_labels pl [])
      = Except.ok (("pod_name:" ++ (ns ++ "/" ++ n))
          :: labels.map (fun kv => "kube_" ++ kv.1 ++ ":" ++ kv.2)) := by
  subst hpl hl
  have hbn : (n == "") = false := by simpa using hn
  have hbns : (ns == "") = false := by simpa using hns
  have H1 : extract_kube_labels
      { items := some [{ metadata := some { name := some n, namespc := some ns, uid := none, labels := some ((k, v) :: rest), ann := none }, status := none }], extra := ([] : List (String × String)) } []
      = [(ns ++ "/" ++ n, ((k, v) :: rest).map (fun kv => "kube_" ++ kv.1 ++ ":" ++ kv.2))] := by
    unfold extract_kube_labels
    simp [ekl_pods_fold, truthyStr, truthyList, hbn, hbns]
    exact ekl_labels_fold_nil (ns ++ "/" ++ n) k v rest
  have hkey : ¬ (ns ++ "/" ++ n = n) := by
    intro h
    have hlen := congrArg String.length h
    rw [String.length_append, String.length_append] at hlen
    have : ("/" : String).length = 1 := rfl
    omega
  refine ⟨H1, ?_, ?_⟩
  · rw [H1]
    simp [alookup, hkey]
  · rw [H1]
    simp [get_pre_1_2_tags, alookup, hnodash, alias_tags, hpa]

/-- Witness for the amended C5 at the concrete single-pod list. -/
theorem c5_witness :
    ("ns" : String) ≠ "" ∧ ("p" : String) ≠ ""
    ∧ pyHasChar ("ns" ++ "/" ++ "p") '-' = false
    ∧ default_cfg.publish_aliases = false
    ∧ (extract_kube_labels c5_single_pl []
        = [("ns" ++ "/" ++ "p", [("a", "b")].map (fun kv => "kube_" ++ kv.1 ++ ":" ++ kv.2))]
      ∧ alookup (extract_kube_labels c5_single_pl []) "p" = none
      ∧ get_pre_1_2_tags default_cfg [(POD_NAME_LABEL, "ns" ++ "/" ++ "p")] empty_sub
          (extract_kube_labels c5_single_pl [])
        = Except.ok (("pod_name:" ++ ("ns" ++ "/" ++ "p"))
            :: [("a", "b")].map (fun kv => "kube_" ++ kv.1 ++ ":" ++ kv.2))) :=
  ⟨by decide, by decide, by decide, rfl,
   c5_amended_composite_key "ns" "p" "a" "b" [] [("a", "b")] rfl (by decide) (by decide)
     c5_single_pl rfl (by decide) default_cfg rfl empty_sub⟩

/-- Membership in the collected uid list. -/
theorem extract_uids_go_mem (u : String) :
    ∀ l : List Pod, u ∈ extract_uids_go l
      ↔ ∃ p ∈ l, (p.metadata.getD default).uid = some u := by
  intro l
  induction l with
  | nil => simp [extract_uids_go]
  | cons p rest ih =>
    cases hu : (p.metadata.getD default).uid with
    | none =>
      simp only [extract_uids_go, hu, ih, List.mem_cons]
      constructor
      · rintro ⟨q, hq, hqu⟩
        exact ⟨q, Or.inr hq, hqu⟩
      · rintro ⟨q, hq | hq, hqu⟩
        · subst hq; rw [hu] at hqu; cases hqu
        · exact ⟨q, hq, hqu⟩
    | some w =>
      simp only [extract_uids_go, hu, List.mem_cons, ih]
      constructor
      · rintro (h | ⟨q, hq, hqu⟩)
        · exact ⟨p, Or.inl rfl, by rw [hu, h]⟩
        · exact ⟨q, Or.inr hq, hqu⟩
      · rintro ⟨q, hq | hq, hqu⟩
        · subst hq; rw [hu] at hqu; exact Or.inl (Option.some_injective _ hqu).symm
        · exact Or.inr ⟨q, hq, hqu⟩

/-- Every notification emitted by the event loop comes from an event of the
input list whose involved object's uid is among the given pod uids. -/
theorem events_loop_sound (kube_host node_name : String) (last_ts : Nat)
    (pod_uids : List String) :
    ∀ (l : List KEvent) (d : DdEvent),
      d ∈ (events_loop kube_host node_name last_ts pod_uids l).1 →
      ∃ ev ∈ l, ∃ obj, ev.involvedObject = some obj
        ∧ ∃ u, obj.uid = some u ∧ u ∈ pod_uids := by
  intro l
  induction l with
  | nil => intro d hd; simp [events_loop] at hd
  | cons ev rest ih =>
    intro d hd
    rw [events_loop] at hd
    cases hts : ev.lastTimestamp with
    | none => rw [hts] at hd; simp at hd
    | some ts =>
      simp only [hts] at hd
      by_cases hlt : ts < last_ts
      · rw [if_pos hlt] at hd
        obtain ⟨ev2, hev2, rest2⟩ := ih d hd
        exact ⟨ev2, List.mem_cons_of_mem ev hev2, rest2⟩
      · rw [if_neg hlt] at hd
        cases hobj : ev.involvedObject with
        | none =>
          simp only [hobj] at hd
          obtain ⟨ev2, hev2, rest2⟩ := ih d hd
          exact ⟨ev2, List.mem_cons_of_mem ev hev2, rest2⟩
        | some obj =>
          simp only [hobj] at hd
          cases huid : obj.uid with
          | none =>
            simp only [huid, Bool.false_eq_true, if_false] at hd
            obtain ⟨ev2, hev2, rest2⟩ := ih d hd
            exact ⟨ev2, List.mem_cons_of_mem ev hev2, rest2⟩
          | some u =>
            simp only [huid] at hd
            by_cases hmem : pod_uids.contains u = true
            · rw [if_pos hmem] at hd
              cases hmk : make_dd_event kube_host node_name last_ts ev obj with
              | error e => rw [hmk] at hd; simp at hd
              | ok dd =>
                simp only [hmk, List.mem_cons] at hd
                cases hd with
                | inl hd =>
                  exact ⟨ev, List.mem_cons_self ev rest, obj, hobj, u, huid,
                    List.elem_iff.mp hmem⟩
                | inr hd =>
                  obtain ⟨ev2, hev2, rest2⟩ := ih d hd
                  exact ⟨ev2, List.mem_cons_of_mem ev hev2, rest2⟩
            · rw [if_neg hmem] at hd
              obtain ⟨ev2, hev2, rest2⟩ := ih d hd
              exact ⟨ev2, List.mem_cons_of_mem ev hev2, rest2⟩

/-- Claim C6: the local pod UID set of a cycle consists exactly of the uids
of the pods of the full list whose `status.hostIP` equals the resolved
node IP, and every notification emitted by `_process_events` stems from an
event whose `involvedObject.uid` belongs to that set. -/
theorem c6_local_uids :
    (∀ (pl : PodsList) (ip u : String),
      u ∈ extract_uids (filter_pods_list pl ip)
        ↔ ∃ pod ∈ pl.items.getD [], (pod.status.getD default).hostIP = some ip
            ∧ (pod.metadata.getD default).uid = some u)
    ∧ (∀ (kube_host node_name node_ip : String) (now : Nat) (prev : Option Nat)
        (pl : PodsList) (items : Option (List KEvent)) (d : DdEvent),
      d ∈ (process_events kube_host node_name node_ip now prev pl items).emitted →
      ∃ ev ∈ items.getD [], ∃ obj, ev.involvedObject = some obj
        ∧ ∃ u, obj.uid = some u ∧ u ∈ extract_uids (filter_pods_list pl node_ip)) := by
  constructor
  · intro pl ip u
    show u ∈ extract_uids_go ((pl.items.getD []).filter
        (fun pod => (pod.status.getD default).hostIP == some ip)) ↔ _
    rw [extract_uids_go_mem]
    constructor
    · rintro ⟨p, hp, hu⟩
      rw [List.mem_filter] at hp
      exact ⟨p, hp.1, eq_of_beq hp.2, hu⟩
    · rintro ⟨p, hp, hip, hu⟩
      exact ⟨p, List.mem_filter.mpr ⟨hp, by simp [hip]⟩, hu⟩
  · intro kube_host node_name node_ip now prev pl items d hd
    exact events_loop_sound kube_host node_name now
      (extract_uids (filter_pods_list pl node_ip)) (items.getD []) d hd

/-- Witness for C6 at a concrete emitted notification. -/
theorem c6_witness :
    c6_dd ∈ (process_events "h" "node" "10.0.0.1" 3 none local_pods_list (some [c6_event])).emitted
    ∧ ∃ ev ∈ (some [c6_event] : Option (List KEvent)).getD [], ∃ obj,
        ev.involvedObject = some obj ∧ ∃ u, obj.uid = some u
          ∧ u ∈ extract_uids (filter_pods_list local_pods_list "10.0.0.1") :=
  ⟨by decide,
   c6_local_uids.2 "h" "node" "10.0.0.1" 3 none local_pods_list (some [c6_event]) c6_dd (by decide)⟩

end DDAgent
